import Mathlib

/-!
Verification of the weather proxy service (`prodesk_task_02.py`).

The service exposes `get_weather(city_name)`, which delegates to
`fetch_weather(city_name)`.  `fetch_weather` reads the credential
`OPENWEATHERMAP_API_KEY` from the environment, issues one outbound HTTP GET
to the upstream weather endpoint with query parameters
`q=<city>`, `appid=<key>`, `units=metric`, classifies the upstream status
code (404 → HTTPException 404 naming the city, other non-200 →
HTTPException 502 with a fixed message, 200 → JSON field extraction into a
`WeatherInfo` value), and returns the report.

Shallow embedding choices:
* the upstream is an explicit function `Request → UpstreamResponse`;
* `fetch_weather` returns, besides its result, the list of outbound
  requests it issued, so that "no outbound call is made" is statable;
* the body of an upstream response is `Option Json`: `none` models a body
  that is not valid JSON (`response.json()` would raise);
* JSON numbers are rationals (no arithmetic is performed on them, they are
  passed through);
* a deliberate `raise HTTPException(status_code, detail)` is
  `FetchError.httpError`, while an unhandled exception escaping the handler
  (KeyError / IndexError / JSONDecodeError / pydantic validation) is
  `FetchError.unhandled`;
* Python `str.capitalize()` (first character uppercased, every following
  character lowercased) is `pyCapitalize`.
-/

/-- JSON values, as produced by `response.json()`. -/
inductive Json where
  | null
  | bool (b : Bool)
  | str (s : String)
  | num (q : Rat)
  | arr (xs : List Json)
  | obj (fields : List (String × Json))

/-- `j[k]` / `j.get(k)` on a JSON object: `none` when `j` is not an object
or the key is absent. -/
def Json.getField : Json → String → Option Json
  | .obj fs, k => fs.lookup k
  | _, _ => none

/-- View a JSON value as a string. -/
def Json.asStr : Json → Option String
  | .str s => some s
  | _ => none

/-- View a JSON value as a number. -/
def Json.asNum : Json → Option Rat
  | .num q => some q
  | _ => none

/-- View a JSON value as an integer (pydantic `int` field). -/
def Json.asInt : Json → Option Int
  | .num q => if q.den = 1 then some q.num else none
  | _ => none

/-- View a JSON value as an array. -/
def Json.asArr : Json → Option (List Json)
  | .arr xs => some xs
  | _ => none

/-- The response schema (`class WeatherInfo(BaseModel)`). -/
structure WeatherInfo where
  city : String
  temperature_celsius : Rat
  humidity_percent : Int
  weather_description : String
  wind_speed_mps : Rat
deriving DecidableEq, Repr

/-- An outbound HTTP GET request: URL and query parameters, in order. -/
structure Request where
  url : String
  params : List (String × String)
deriving DecidableEq, Repr

/-- An upstream HTTP response: status code and parsed body
(`none` = the body is not valid JSON). -/
structure UpstreamResponse where
  status_code : Nat
  body : Option Json

/-- How a request terminates abnormally: a deliberate
`HTTPException(status_code, detail)`, or an unhandled exception escaping
the handler. -/
inductive FetchError where
  | httpError (status_code : Nat) (detail : String)
  | unhandled (detail : String)
deriving DecidableEq, Repr

/-- Python `str.capitalize()`: first character uppercased, all remaining
characters lowercased. -/
def pyCapitalize (s : String) : String :=
  match s.data with
  | [] => ""
  | c :: cs => String.mk (Char.toUpper c :: cs.map Char.toLower)

/-- The fixed upstream endpoint (`api_url` in the source). -/
def api_url : String := "https://api.openweathermap.org/data/2.5/weather"

/-- The single outbound request `fetch_weather` builds: `api_url` with
query parameters `q` (the city, verbatim), `appid` (the credential) and
`units=metric`. -/
def buildRequest (city_name api_key : String) : Request :=
  { url := api_url,
    params := [("q", city_name), ("appid", api_key), ("units", "metric")] }

/-- The field-extraction step of the 200 branch:
`data.get("name")`, `data["main"]["temp"]`, `data["main"]["humidity"]`,
`data["weather"][0]["description"].capitalize()`, `data["wind"]["speed"]`.
`none` models an unhandled KeyError / IndexError / validation error. -/
def extractWeather? (data : Json) : Option WeatherInfo := do
  let city ← (data.getField "name").bind Json.asStr
  let main ← data.getField "main"
  let temp ← (main.getField "temp").bind Json.asNum
  let humidity ← (main.getField "humidity").bind Json.asInt
  let warr ← (data.getField "weather").bind Json.asArr
  let w0 ← warr.head?
  let desc ← (w0.getField "description").bind Json.asStr
  let wind ← data.getField "wind"
  let speed ← (wind.getField "speed").bind Json.asNum
  pure { city := city, temperature_celsius := temp, humidity_percent := humidity,
         weather_description := pyCapitalize desc, wind_speed_mps := speed }

/-- The part of `fetch_weather` after the outbound call: classify the
upstream status code (`404` / other non-`200` / `200`) and, on `200`,
parse the body and extract the fields. -/
def classifyResponse (city_name : String) (response : UpstreamResponse) :
    Except FetchError WeatherInfo :=
  if response.status_code = 404 then
    Except.error (FetchError.httpError 404
      ("City \x27" ++ city_name ++ "\x27 not found."))
  else if response.status_code ≠ 200 then
    Except.error (FetchError.httpError 502
      "Something went wrong while fetching weather data.")
  else
    match response.body with
    | none => Except.error (FetchError.unhandled "upstream body is not valid JSON")
    | some data =>
      match extractWeather? data with
      | none =>
        Except.error (FetchError.unhandled "missing or malformed field in upstream JSON")
      | some report => Except.ok report

/-- `fetch_weather` from the source.  `api_key` is
`os.getenv("OPENWEATHERMAP_API_KEY")` (`none` = variable absent); the
Python truthiness test `if not api_key` is `api_key.getD "" = ""`.
The second component of the result lists the outbound requests issued. -/
def fetch_weather (api_key : Option String) (city_name : String)
    (upstream : Request → UpstreamResponse) :
    Except FetchError WeatherInfo × List Request :=
  if api_key.getD "" = "" then
    (Except.error (FetchError.httpError 500
      "OpenWeatherMap API key is missing. Please set it in your environment variables."), [])
  else
    let req := buildRequest city_name (api_key.getD "")
    (classifyResponse city_name (upstream req), [req])

/-- "The JSON body contains all expected fields", with the values they
carry: top-level `name`, `main.temp`, `main.humidity` (an integer),
`weather[0].description`, `wind.speed`. -/
def hasExpectedFields (data : Json) (nm : String) (temp : Rat) (hum : Int)
    (desc : String) (speed : Rat) : Prop :=
  (data.getField "name").bind Json.asStr = some nm ∧
  (data.getField "main").bind (fun m => (m.getField "temp").bind Json.asNum) = some temp ∧
  (data.getField "main").bind (fun m => (m.getField "humidity").bind Json.asInt) = some hum ∧
  (((data.getField "weather").bind Json.asArr).bind List.head?).bind
    (fun w => (w.getField "description").bind Json.asStr) = some desc ∧
  (data.getField "wind").bind (fun w => (w.getField "speed").bind Json.asNum) = some speed

instance (data : Json) (nm : String) (temp : Rat) (hum : Int) (desc : String) (speed : Rat) :
    Decidable (hasExpectedFields data nm temp hum desc speed) := by
  unfold hasExpectedFields; infer_instance

example : pyCapitalize "light rain" = "Light rain" := by decide
example : pyCapitalize "light RAIN" = "Light rain" := by decide

/-- A full upstream payload, as the upstream would return it for a
successful lookup. -/
def sampleJson : Json := Json.obj
  [("weather", Json.arr [Json.obj
      [("id", Json.num 500), ("description", Json.str "light rain")]]),
   ("main", Json.obj [("temp", Json.num 21), ("humidity", Json.num 60)]),
   ("wind", Json.obj [("speed", Json.num 3)]),
   ("name", Json.str "Paris")]

/-- An upstream payload whose description has uppercase characters past
the first one. -/
def mixedCaseJson : Json := Json.obj
  [("weather", Json.arr [Json.obj [("description", Json.str "light RAIN")]]),
   ("main", Json.obj [("temp", Json.num 10), ("humidity", Json.num 80)]),
   ("wind", Json.obj [("speed", Json.num 5)]),
   ("name", Json.str "London")]

/-- An upstream payload with the `weather` array absent. -/
def missingWeatherJson : Json := Json.obj
  [("main", Json.obj [("temp", Json.num 21), ("humidity", Json.num 60)]),
   ("wind", Json.obj [("speed", Json.num 3)]),
   ("name", Json.str "Paris")]

/-- If the payload carries all expected fields, extraction succeeds and
produces exactly the mapped values. -/
theorem extract_of_fields (data : Json) (nm : String) (temp : Rat) (hum : Int)
    (desc : String) (speed : Rat)
    (h : hasExpectedFields data nm temp hum desc speed) :
    extractWeather? data = some
      { city := nm, temperature_celsius := temp, humidity_percent := hum,
        weather_description := pyCapitalize desc, wind_speed_mps := speed } := by
  obtain ⟨h1, h2, h3, h4, h5⟩ := h
  cases hn : data.getField "name" with
  | none => rw [hn] at h1; exact absurd h1 (by simp)
  | some nv =>
    cases hm : data.getField "main" with
    | none => rw [hm] at h2; exact absurd h2 (by simp)
    | some m =>
      cases hw1 : data.getField "weather" with
      | none => rw [hw1] at h4; exact absurd h4 (by simp)
      | some wv =>
        cases hw2 : wv.asArr with
        | none => rw [hw1] at h4; simp [Option.bind, hw2] at h4
        | some warr =>
          cases hw3 : warr.head? with
          | none => rw [hw1] at h4; simp [Option.bind, hw2, hw3] at h4
          | some w0 =>
            cases hwind : data.getField "wind" with
            | none => rw [hwind] at h5; exact absurd h5 (by simp)
            | some wd =>
              rw [hn] at h1
              rw [hm] at h2 h3
              rw [hw1] at h4
              rw [hwind] at h5
              simp only [Option.some_bind] at h1 h2 h3 h5
              simp only [Option.some_bind, hw2, hw3] at h4
              simp [extractWeather?, hn, hm, hw1, hwind, h1, h2, h3, h4, h5, hw2, hw3]

/-- Claim C1: for every upstream response with HTTP status 200 whose JSON
body contains all expected fields, `fetch_weather` returns a report whose
fields equal the mapped upstream values: `city` = top-level `name`,
`temperature_celsius` = `main.temp`, `humidity_percent` = `main.humidity`,
`weather_description` = `weather[0].description` capitalized,
`wind_speed_mps` = `wind.speed`. -/
theorem fetch_weather_maps_200_fields (api_key city_name nm desc : String)
    (temp speed : Rat) (hum : Int)
    (upstream : Request → UpstreamResponse) (data : Json)
    (hkey : api_key ≠ "")
    (hstatus : (upstream (buildRequest city_name api_key)).status_code = 200)
    (hbody : (upstream (buildRequest city_name api_key)).body = some data)
    (hfields : hasExpectedFields data nm temp hum desc speed) :
    (fetch_weather (some api_key) city_name upstream).1 =
      Except.ok { city := nm, temperature_celsius := temp, humidity_percent := hum,
                  weather_description := pyCapitalize desc, wind_speed_mps := speed } := by
  have hx := extract_of_fields data nm temp hum desc speed hfields
  unfold fetch_weather classifyResponse
  simp [hkey, hstatus, hbody, hx]

/-- Witness for C1: a concrete 200 response with all fields. -/
theorem fetch_weather_maps_200_fields_witness :
    (fetch_weather (some "secret") "Paris"
        (fun _ => { status_code := 200, body := some sampleJson })).1 =
      Except.ok { city := "Paris", temperature_celsius := 21, humidity_percent := 60,
                  weather_description := "Light rain", wind_speed_mps := 3 } := by
  have h := fetch_weather_maps_200_fields "secret" "Paris" "Paris" "light rain"
    21 3 60 (fun _ => { status_code := 200, body := some sampleJson }) sampleJson
    (by decide) rfl rfl (by decide)
  have hc : pyCapitalize "light rain" = "Light rain" := by decide
  rw [hc] at h
  exact h

/-- Claim C2: when the credential environment variable is absent,
`fetch_weather` fails with the "configuration missing" 500 error and
issues no outbound request. -/
theorem fetch_weather_no_key (city_name : String)
    (upstream : Request → UpstreamResponse) :
    fetch_weather none city_name upstream =
      (Except.error (FetchError.httpError 500
        "OpenWeatherMap API key is missing. Please set it in your environment variables."),
       []) := rfl

/-- Claim C9: when the credential environment variable is set to the empty
string, `fetch_weather` behaves exactly as when it is absent (the code
tests truthiness, not presence): same 500 error, no outbound request. -/
theorem fetch_weather_empty_key (city_name : String)
    (upstream : Request → UpstreamResponse) :
    fetch_weather (some "") city_name upstream = fetch_weather none city_name upstream ∧
    fetch_weather (some "") city_name upstream =
      (Except.error (FetchError.httpError 500
        "OpenWeatherMap API key is missing. Please set it in your environment variables."),
       []) := ⟨rfl, rfl⟩

/-- Claim C3: when the upstream responds 404, `fetch_weather` fails with a
404 error whose message mentions the exact requested city name. -/
theorem fetch_weather_404 (api_key city_name : String)
    (upstream : Request → UpstreamResponse)
    (hkey : api_key ≠ "")
    (hstatus : (upstream (buildRequest city_name api_key)).status_code = 404) :
    fetch_weather (some api_key) city_name upstream =
      (Except.error (FetchError.httpError 404
        ("City \x27" ++ city_name ++ "\x27 not found.")),
       [buildRequest city_name api_key]) ∧
    ∃ a b, "City \x27" ++ city_name ++ "\x27 not found." = a ++ city_name ++ b := by
  refine ⟨?_, "City \x27", "\x27 not found.", rfl⟩
  unfold fetch_weather classifyResponse
  simp [hkey, hstatus]

/-- Witness for C3: a concrete upstream 404. -/
theorem fetch_weather_404_witness :
    fetch_weather (some "secret") "Atlantis"
        (fun _ => { status_code := 404, body := none }) =
      (Except.error (FetchError.httpError 404 ("City \x27Atlantis\x27 not found.")),
       [buildRequest "Atlantis" "secret"]) ∧
    ∃ a b, ("City \x27Atlantis\x27 not found." : String) = a ++ "Atlantis" ++ b := by
  have h := fetch_weather_404 "secret" "Atlantis"
    (fun _ => { status_code := 404, body := none }) (by decide) rfl
  simpa using h

/-- Claim C4: when the upstream responds with a status other than 200 and
404, `fetch_weather` fails with the fixed 502 error; the message is a
constant (so independent of the upstream status and body) and contains no
digit, hence not the raw upstream status code. -/
theorem fetch_weather_502 (api_key city_name : String)
    (upstream : Request → UpstreamResponse)
    (hkey : api_key ≠ "")
    (h200 : (upstream (buildRequest city_name api_key)).status_code ≠ 200)
    (h404 : (upstream (buildRequest city_name api_key)).status_code ≠ 404) :
    fetch_weather (some api_key) city_name upstream =
      (Except.error (FetchError.httpError 502
        "Something went wrong while fetching weather data."),
       [buildRequest city_name api_key]) ∧
    ∀ c ∈ "Something went wrong while fetching weather data.".data,
      c.isDigit = false := by
  refine ⟨?_, by decide⟩
  unfold fetch_weather classifyResponse
  simp [hkey, h200, h404]

/-- Witness for C4: a concrete upstream 500. -/
theorem fetch_weather_502_witness :
    fetch_weather (some "secret") "Paris"
        (fun _ => { status_code := 500, body := none }) =
      (Except.error (FetchError.httpError 502
        "Something went wrong while fetching weather data."),
       [buildRequest "Paris" "secret"]) ∧
    ∀ c ∈ "Something went wrong while fetching weather data.".data,
      c.isDigit = false := by
  have h := fetch_weather_502 "secret" "Paris"
    (fun _ => { status_code := 500, body := none }) (by decide) (by decide) (by decide)
  simpa using h

/-- Counterexample to claim C5: Python `str.capitalize()` lowercases every
character after the first, so characters after the first are NOT left
unchanged.  Upstream description "light RAIN" is returned as "Light rain",
whose tail differs from the original tail. -/
theorem capitalize_not_tail_preserving_cex :
    (fetch_weather (some "secret") "London"
        (fun _ => { status_code := 200, body := some mixedCaseJson })).1 =
      Except.ok { city := "London", temperature_celsius := 10, humidity_percent := 80,
                  weather_description := "Light rain", wind_speed_mps := 5 } ∧
    "Light rain".drop 1 ≠ "light RAIN".drop 1 := by
  constructor
  · have h := extract_of_fields mixedCaseJson "London" 10 80 "light RAIN" 5 (by decide)
    have hc : pyCapitalize "light RAIN" = "Light rain" := by decide
    rw [hc] at h
    unfold fetch_weather classifyResponse
    simp [h]
  · decide

/-- Claim C5 (amended): for every successful (200) upstream response, the
returned `weather_description` is the upstream `weather[0].description`
with its first character uppercased and ALL following characters
lowercased (Python `str.capitalize` semantics). -/
theorem fetch_weather_description_capitalize_lowercases_tail
    (api_key city_name nm desc : String) (temp speed : Rat) (hum : Int)
    (upstream : Request → UpstreamResponse) (data : Json)
    (hkey : api_key ≠ "")
    (hstatus : (upstream (buildRequest city_name api_key)).status_code = 200)
    (hbody : (upstream (buildRequest city_name api_key)).body = some data)
    (hfields : hasExpectedFields data nm temp hum desc speed)
    (c : Char) (cs : List Char) (hdesc : desc.data = c :: cs) :
    ∃ report,
      (fetch_weather (some api_key) city_name upstream).1 = Except.ok report ∧
      report.weather_description.data = Char.toUpper c :: cs.map Char.toLower := by
  have hx := extract_of_fields data nm temp hum desc speed hfields
  refine ⟨{ city := nm, temperature_celsius := temp, humidity_percent := hum,
            weather_description := pyCapitalize desc, wind_speed_mps := speed },
          ?_, ?_⟩
  · unfold fetch_weather classifyResponse
    simp [hkey, hstatus, hbody, hx]
  · simp [pyCapitalize, hdesc]

/-- Witness for the amended C5: upstream description "light RAIN" comes
back with the first character uppercased and the tail lowercased. -/
theorem fetch_weather_description_capitalize_lowercases_tail_witness :
    ∃ report,
      (fetch_weather (some "secret") "London"
          (fun _ => { status_code := 200, body := some mixedCaseJson })).1 =
        Except.ok report ∧
      report.weather_description.data =
        Char.toUpper 'l' :: "ight RAIN".data.map Char.toLower :=
  fetch_weather_description_capitalize_lowercases_tail "secret" "London" "London"
    "light RAIN" 10 5 80
    (fun _ => { status_code := 200, body := some mixedCaseJson }) mixedCaseJson
    (by decide) rfl rfl (by decide) 'l' "ight RAIN".data (by decide)

/-- Claim C6: every outbound request issued by `fetch_weather` goes to the
fixed endpoint and carries exactly the three query parameters `q` (the
requested city, verbatim), `appid` (the credential) and `units=metric`. -/
theorem fetch_weather_query_params (api_key : Option String) (city_name : String)
    (upstream : Request → UpstreamResponse) (req : Request)
    (hreq : req ∈ (fetch_weather api_key city_name upstream).2) :
    req.url = api_url ∧
    req.params = [("q", city_name), ("appid", api_key.getD ""), ("units", "metric")] := by
  by_cases hk : api_key.getD "" = ""
  · simp [fetch_weather, hk] at hreq
  · simp [fetch_weather, hk] at hreq
    subst hreq
    exact ⟨rfl, rfl⟩

/-- Witness for C6: a city name with a space and a non-ASCII character is
passed through verbatim. -/
theorem fetch_weather_query_params_witness :
    (buildRequest "São Paulo" "secret").url = api_url ∧
    (buildRequest "São Paulo" "secret").params =
      [("q", "São Paulo"), ("appid", (some "secret" : Option String).getD ""),
       ("units", "metric")] :=
  fetch_weather_query_params (some "secret") "São Paulo"
    (fun _ => { status_code := 200, body := some sampleJson })
    (buildRequest "São Paulo" "secret") (by decide)

/-- Claim C7: `fetch_weather` is deterministic; its outcome depends only
on the credential, the city and the upstream response to the one request
it builds, so two runs against upstreams that answer that request
identically produce identical results. -/
theorem fetch_weather_deterministic (api_key : Option String) (city_name : String)
    (u1 u2 : Request → UpstreamResponse)
    (h : u1 (buildRequest city_name (api_key.getD ""))
       = u2 (buildRequest city_name (api_key.getD ""))) :
    fetch_weather api_key city_name u1 = fetch_weather api_key city_name u2 := by
  unfold fetch_weather
  by_cases hk : api_key.getD "" = "" <;> simp [hk, h]

/-- Witness for C7: two runs with the same mocked upstream agree. -/
theorem fetch_weather_deterministic_witness :
    fetch_weather (some "secret") "Paris"
        (fun _ => { status_code := 200, body := some sampleJson })
      = fetch_weather (some "secret") "Paris"
        (fun _ => { status_code := 200, body := some sampleJson }) :=
  fetch_weather_deterministic (some "secret") "Paris" _ _ rfl

/-- Claim C8: a 200 upstream response whose JSON body is missing an
expected field makes `fetch_weather` fail with an unhandled
extraction error, not with any of the designed `HTTPException` responses. -/
theorem fetch_weather_missing_field_unhandled (api_key city_name : String)
    (upstream : Request → UpstreamResponse) (data : Json)
    (hkey : api_key ≠ "")
    (hstatus : (upstream (buildRequest city_name api_key)).status_code = 200)
    (hbody : (upstream (buildRequest city_name api_key)).body = some data)
    (hmiss : extractWeather? data = none) :
    (fetch_weather (some api_key) city_name upstream).1 =
      Except.error (FetchError.unhandled "missing or malformed field in upstream JSON") ∧
    ∀ s d, (fetch_weather (some api_key) city_name upstream).1 ≠
      Except.error (FetchError.httpError s d) := by
  have h1 : (fetch_weather (some api_key) city_name upstream).1 =
      Except.error (FetchError.unhandled "missing or malformed field in upstream JSON") := by
    unfold fetch_weather classifyResponse
    simp [hkey, hstatus, hbody, hmiss]
  refine ⟨h1, fun s d => ?_⟩
  rw [h1]
  simp

/-- Witness for C8: a 200 body with the `weather` array absent. -/
theorem fetch_weather_missing_field_unhandled_witness :
    (fetch_weather (some "secret") "Paris"
        (fun _ => { status_code := 200, body := some missingWeatherJson })).1 =
      Except.error (FetchError.unhandled "missing or malformed field in upstream JSON") ∧
    ∀ s d, (fetch_weather (some "secret") "Paris"
        (fun _ => { status_code := 200, body := some missingWeatherJson })).1 ≠
      Except.error (FetchError.httpError s d) :=
  fetch_weather_missing_field_unhandled "secret" "Paris"
    (fun _ => { status_code := 200, body := some missingWeatherJson })
    missingWeatherJson (by decide) rfl rfl (by decide)

/-- On a non-200 status the classification never inspects the body and
always produces a deliberate `HTTPException`. -/
theorem classify_non200_body_independent (city_name : String)
    (r1 r2 : UpstreamResponse)
    (hs : r1.status_code = r2.status_code) (hne : r1.status_code ≠ 200) :
    classifyResponse city_name r1 = classifyResponse city_name r2 ∧
    ∃ s d, classifyResponse city_name r1 = Except.error (FetchError.httpError s d) := by
  unfold classifyResponse
  rw [← hs]
  by_cases h4 : r1.status_code = 404
  · exact ⟨by simp [h4], 404, "City \x27" ++ city_name ++ "\x27 not found.", by simp [h4]⟩
  · exact ⟨by simp [h4, hne], 502, "Something went wrong while fetching weather data.",
      by simp [h4, hne]⟩

/-- Claim C10: when the upstream status is not 200, the response body is
never JSON-parsed: the result is the same for any body (malformed
included) and is always a deliberate `HTTPException`, never a parse
failure. -/
theorem fetch_weather_non200_never_parses_body (api_key : Option String)
    (city_name : String) (u1 u2 : Request → UpstreamResponse)
    (hs : (u1 (buildRequest city_name (api_key.getD ""))).status_code
        = (u2 (buildRequest city_name (api_key.getD ""))).status_code)
    (hne : (u1 (buildRequest city_name (api_key.getD ""))).status_code ≠ 200) :
    fetch_weather api_key city_name u1 = fetch_weather api_key city_name u2 ∧
    ∃ s d, (fetch_weather api_key city_name u1).1 =
      Except.error (FetchError.httpError s d) := by
  by_cases hk : api_key.getD "" = ""
  · exact ⟨by simp [fetch_weather, hk], 500,
      "OpenWeatherMap API key is missing. Please set it in your environment variables.",
      by simp [fetch_weather, hk]⟩
  · obtain ⟨hEq, s, d, hErr⟩ :=
      classify_non200_body_independent city_name _ _ hs hne
    refine ⟨?_, s, d, ?_⟩
    · simp [fetch_weather, hk, hEq]
    · simp [fetch_weather, hk, hErr]

/-- Witness for C10: a 503 with a well-formed body and a 503 with a
malformed body give the same gateway-error outcome. -/
theorem fetch_weather_non200_never_parses_body_witness :
    fetch_weather (some "secret") "Paris"
        (fun _ => { status_code := 503, body := some sampleJson })
      = fetch_weather (some "secret") "Paris"
        (fun _ => { status_code := 503, body := none }) ∧
    ∃ s d, (fetch_weather (some "secret") "Paris"
        (fun _ => { status_code := 503, body := some sampleJson })).1 =
      Except.error (FetchError.httpError s d) :=
  fetch_weather_non200_never_parses_body (some "secret") "Paris"
    (fun _ => { status_code := 503, body := some sampleJson })
    (fun _ => { status_code := 503, body := none }) rfl (by decide)
